import Mathlib

/-!
# A verification development for the EXRuster build orchestrator (src/build.py)

The Python script `build.py` is a sequential command-line orchestrator around
an external toolchain (`cargo`).  This file gives a shallow embedding of its
data model and operations:

* pure text processing (`detect_bin_name` and its helpers) is translated
  function by function from the source;
* effectful code is embedded as explicit state passing over a filesystem
  abstraction (`Fs`) plus an environment (`Env`) of external oracles: the
  outcome of each spawned external command, the command's effect on the
  filesystem, the outcome of `tomllib.loads`, the text read from the manifest
  and the interactive `input()` answer.  All of these are behaviour of
  *external* collaborators (the cargo toolchain, the Python standard library,
  the user), so they are inputs of the model, not code of the repository;
* every `print` of the script is recorded as an `Act.msg` event in an ordered
  trace; invocations, existence checks, directory creation, removal and the
  copy are recorded as their own trace events.  Numeric interpolations that
  are pure presentation (wall-clock timings, sizes rendered as floating-point
  mebibytes) are elided from the message texts; sizes are carried in bytes.
* Python exceptions are explicit: `Except PyErr` with `keyboardInterrupt`
  (KeyboardInterrupt, which is *not* an `Exception` subclass and therefore
  passes through every `except Exception` handler of the script) and
  `otherExc` (any `Exception` that escapes to the top level).
-/

/-- A parsed TOML value, as the script's `tomllib` stage sees it: the code only
inspects strings, lists and dicts (`isinstance` checks), so every other value
shape is `other`. -/
inductive PyVal where
  | str (s : String)
  | int (n : Int)
  | list (l : List PyVal)
  | dict (d : List (String × PyVal))
  | other

/-- Python `dict.get(k)` on the association lists that model parsed TOML
tables (TOML keys are unique, so first-match lookup is the dict lookup). -/
def pyGet (d : List (String × PyVal)) (k : String) : Option PyVal :=
  (d.find? (fun p => p.1 == k)).map Prod.snd

/-- The characters Python's `str.strip()` removes: those with
`str.isspace()` true (the Unicode whitespace set). -/
def isPySpace (c : Char) : Bool :=
  c == ' ' || c == '\t' || c == '\n' || c == '\r' || c == '\x0b' || c == '\x0c' ||
  c == '\x1c' || c == '\x1d' || c == '\x1e' || c == '\x1f' || c == '\x85' || c == '\xa0' ||
  c == '\u1680' || c == '\u2000' || c == '\u2001' || c == '\u2002' || c == '\u2003' ||
  c == '\u2004' || c == '\u2005' || c == '\u2006' || c == '\u2007' || c == '\u2008' ||
  c == '\u2009' || c == '\u200a' || c == '\u2028' || c == '\u2029' || c == '\u202f' ||
  c == '\u205f' || c == '\u3000'

/-- Python `str.strip()`. -/
def pyStrip (s : String) : String :=
  String.mk (((s.data.dropWhile isPySpace).reverse.dropWhile isPySpace).reverse)

/-- Python `s.startswith(p)`. -/
def pyStartswith (s p : String) : Bool :=
  p.data.isPrefixOf s.data

/-- The line boundaries of Python's `str.splitlines()`. -/
def isLineBoundary (c : Char) : Bool :=
  c == '\n' || c == '\r' || c == '\x0b' || c == '\x0c' ||
  c == '\x1c' || c == '\x1d' || c == '\x1e' || c == '\x85' ||
  c == '\u2028' || c == '\u2029'

/-- Worker for `pySplitlines`: `acc` holds the current line reversed.  A
final line without terminator is kept; a trailing terminator adds no empty
line, exactly as in Python. -/
def splitlinesAux : List Char → List Char → List String
  | [], acc => if acc.isEmpty then [] else [String.mk acc.reverse]
  | '\r' :: '\n' :: rest, acc => String.mk acc.reverse :: splitlinesAux rest []
  | c :: rest, acc =>
    if isLineBoundary c then String.mk acc.reverse :: splitlinesAux rest []
    else splitlinesAux rest (c :: acc)

/-- Python `str.splitlines()`. -/
def pySplitlines (s : String) : List String :=
  splitlinesAux s.data []

/-- The characters after the first `=`, i.e. Python
`line.split("=", 1)[1]` (total: yields `[]` when no `=` occurs; every caller
guards with `"=" in line` first, as the source does). -/
def afterFirstEq : List Char → List Char
  | [] => []
  | c :: rest => if c == '=' then rest else afterFirstEq rest

/-- The quoted-name extraction both fallback loops of `detect_bin_name`
perform on the already-stripped right-hand side of a `name = ...` line:
`if name_part.startswith('"') and '"' in name_part[1:]`, then
`name_part.split('"')[1]`, returned only when non-empty. -/
def tryExtract (namePart : String) : Option String :=
  match namePart.data with
  | [] => none
  | c :: rest =>
    if c == '"' && rest.contains '"' then
      let name := rest.takeWhile (fun d => d != '"')
      if name.isEmpty then none else some (String.mk name)
    else none

/-- One line of the fallback scans, as the `[[bin]]` loop tests it: the value
returned when the stripped line starts with `name`, contains `=` and the
right-hand side carries a non-empty double-quoted value; `none` otherwise. -/
def nameMatchVal (raw : String) : Option String :=
  let line := pyStrip raw
  if pyStartswith line "name" && line.data.contains '=' then
    tryExtract (pyStrip (String.mk (afterFirstEq line.data)))
  else none

/-- The first fallback loop of `detect_bin_name` (src/build.py lines 49-63):
walks the stripped lines with the `in_bin` flag; a line starting with
`[[bin]]` sets the flag (and is never reset); with the flag set, the first
line with a non-empty quoted `name = "..."` value is returned. -/
def binScan : List String → Bool → Option String
  | [], _ => none
  | raw :: rest, inBin =>
    let line := pyStrip raw
    if pyStartswith line "[[bin]]" then binScan rest true
    else if inBin && pyStartswith line "name" && line.data.contains '=' then
      match tryExtract (pyStrip (String.mk (afterFirstEq line.data))) with
      | some name => some name
      | none => binScan rest inBin
    else binScan rest inBin

/-- The second fallback loop of `detect_bin_name` (src/build.py lines 65-82):
the `in_package` flag is set at a line starting with `[package]`; inside the
section a new section header breaks the loop (the function then returns
`None`); a matching `name = "..."` line returns its value. -/
def pkgScan : List String → Bool → Option String
  | [], _ => none
  | raw :: rest, inPkg =>
    let line := pyStrip raw
    if pyStartswith line "[package]" then pkgScan rest true
    else if inPkg then
      if pyStartswith line "[" && !(pyStartswith line "[package]") then none
      else if pyStartswith line "name" && line.data.contains '=' then
        match tryExtract (pyStrip (String.mk (afterFirstEq line.data))) with
        | some name => some name
        | none => pkgScan rest inPkg
      else pkgScan rest inPkg
    else pkgScan rest inPkg

/-- The whole line-oriented fallback of `detect_bin_name`: the `[[bin]]` scan
first, then the `[package]` scan over the same lines. -/
def lineFallback (content : String) : Option String :=
  let lines := pySplitlines content
  match binScan lines false with
  | some n => some n
  | none => pkgScan lines false

/-- The `tomllib` stage's `[[bin]]` lookup (src/build.py lines 34-38).
`none` models an exception escaping to the stage's `except` (the element
`bin_tables[0]` is not a dict, so `.get` raises `AttributeError`);
`some r` models normal control flow with `r` the name returned, if any.
The `isinstance(name, str) and name.strip()` guard keeps only a string whose
strip is non-empty, and the stripped name is returned. -/
def tomlBinLookup (data : List (String × PyVal)) : Option (Option String) :=
  match pyGet data "bin" with
  | some (PyVal.list (first :: _)) =>
    match first with
    | PyVal.dict d =>
      some (match pyGet d "name" with
            | some (PyVal.str s) =>
              if (pyStrip s).isEmpty then none else some (pyStrip s)
            | _ => none)
    | _ => none
  | _ => some none

/-- The `tomllib` stage's `[package]` fallback (src/build.py lines 40-43):
`data.get("package", {})` followed by `.get("name")`.  A non-dict `package`
value raises (`AttributeError`), which the stage's `except` turns into the
same outcome as finding nothing: fall through to the line scan. -/
def tomlPkgLookup (data : List (String × PyVal)) : Option String :=
  match pyGet data "package" with
  | some (PyVal.dict d) =>
    (match pyGet d "name" with
     | some (PyVal.str s) =>
       if (pyStrip s).isEmpty then none else some (pyStrip s)
     | _ => none)
  | some _ => none
  | none => none

/-- The whole `tomllib` stage on successfully parsed data: `some n` when the
stage returns `n`; `none` when control reaches the line-oriented fallback
(either by raising inside the `try` or by finding neither name). -/
def tomlStage (data : List (String × PyVal)) : Option String :=
  match tomlBinLookup data with
  | none => none
  | some (some n) => some n
  | some none => tomlPkgLookup data

/-- `RustBuilder.detect_bin_name` (src/build.py lines 20-83).

* `readResult` is the outcome of `self.cargo_toml.read_text(...)`: `none`
  when it raises (any exception is caught and `None` returned at once).
* `tomlResult` is the outcome of `import tomllib; tomllib.loads(content)`:
  `none` when either raises (`ImportError` on Python < 3.11, or
  `TOMLDecodeError` on invalid input) — the stage's `except` then falls
  through to the line-oriented scan; `some data` when parsing succeeds.
  `tomllib` is the Python standard library, external to this repository, so
  its outcome is an oracle input of the embedding. -/
def detect_bin_name (readResult : Option String)
    (tomlResult : Option (List (String × PyVal))) : Option String :=
  match readResult with
  | none => none
  | some content =>
    match tomlResult with
    | none => lineFallback content
    | some data =>
      match tomlStage data with
      | some n => some n
      | none => lineFallback content

example : pyStrip "  a b \t" = "a b" := by decide
example : pySplitlines "a\nb\r\nc" = ["a", "b", "c"] := by decide
example : nameMatchVal "name = \"foo\"  " = some "foo" := by decide
example : nameMatchVal "names = \"x\"" = some "x" := by decide
example : nameMatchVal "name \"foo\"" = none := by decide
example :
    detect_bin_name (some "[[bin]]\nname = \"foo\"\n\n[package]\nname = \"bar\"\n") none
      = some "foo" := by decide
example :
    detect_bin_name (some "[package]\nname = \"bar\"\n") none = some "bar" := by decide
example :
    detect_bin_name (some "[dependencies]\nserde = \"1.0\"\n") none = none := by decide

/-! ## The effectful embedding -/

/-- One observable event of the script, in program order. -/
inductive Act where
  | runCmd (command : List String)
  | statCheck (path : String)
  | rmtree (path : String)
  | mkdir (path : String)
  | copy (src dst : String)
  | msg (text : String)
  | prompt (text : String)
deriving DecidableEq

/-- A Python exception class that can reach the top-level handler of `main`:
`KeyboardInterrupt` is not an `Exception` subclass, so `except Exception`
blocks pass it through; `otherExc` stands for every `Exception`. -/
inductive PyErr where
  | keyboardInterrupt
  | otherExc
deriving DecidableEq

/-- The outcome of one `subprocess.run(..., check=True)` call:
`ok` = exit 0; `err code` = `CalledProcessError` (nonzero exit `code`);
`exc` = any other `Exception` (e.g. spawn failure); `interrupt` =
`KeyboardInterrupt` raised while waiting. -/
inductive CmdRes where
  | ok
  | err (code : Int)
  | exc
  | interrupt
deriving DecidableEq

/-- The filesystem as the script observes it: regular files with byte sizes
(`size p = some n` means `p` exists with `stat().st_size = n`) and directory
existence. -/
structure Fs where
  size : String → Option Nat
  dirExists : String → Bool

/-- The external world: everything outside the script's own code. -/
structure Env where
  /-- `self.project_dir` (the resolved `--project-dir`). -/
  projectDir : String
  /-- `os.name == "nt"` (Windows-like platform, `.exe` suffix). -/
  osIsNt : Bool
  /-- outcome of `self.cargo_toml.read_text(...)`, `none` = raised. -/
  readResult : Option String
  /-- outcome of `tomllib.loads(content)`, `none` = import or parse raised. -/
  tomlResult : Option (List (String × PyVal))
  /-- outcome of spawning an external command. -/
  cmdRes : List String → CmdRes
  /-- effect of an external command on the filesystem. -/
  cmdFs : List String → Fs → Fs
  /-- effect of `shutil.rmtree(path, ignore_errors=True)`. -/
  rmtreeFs : String → Fs → Fs
  /-- whether `shutil.copy2` succeeds (raises otherwise). -/
  copyOk : Bool
  /-- outcome of `input(...)`, `none` = raised (e.g. `EOFError`). -/
  input : Option String

/-- Path join: the script always builds paths with `Path./`. -/
def pjoin (a b : String) : String := a ++ "/" ++ b

/-- `self.cargo_toml = self.project_dir / "Cargo.toml"`. -/
def cargoTomlPath (env : Env) : String := pjoin env.projectDir "Cargo.toml"

/-- `self.project_dir / "target"`. -/
def targetDirPath (env : Env) : String := pjoin env.projectDir "target"

/-- The platform-suffixed executable name used by `build_final`. -/
def finalExeName (env : Env) (binName : String) : String :=
  if env.osIsNt then binName ++ ".exe" else binName

/-- `build_final`'s built artifact path `target/release/<exe_name>`. -/
def builtPath (env : Env) (binName : String) : String :=
  pjoin (pjoin (targetDirPath env) "release") (finalExeName env binName)

/-- `build_final`'s destination path `<out_dir>/<exe_name>`. -/
def finalPath (env : Env) (binName outDir : String) : String :=
  pjoin (pjoin env.projectDir outDir) (finalExeName env binName)

/-- `RustBuilder.check_cargo_project` (src/build.py lines 96-102): true iff
the manifest exists; prints two diagnostics otherwise.  It never reads the
file's contents. -/
def check_cargo_project (env : Env) (fs : Fs) : Bool × List Act :=
  if (fs.size (cargoTomlPath env)).isSome then (true, [Act.statCheck (cargoTomlPath env)])
  else
    (false,
     [Act.statCheck (cargoTomlPath env),
      Act.msg ("❌ Błąd: Nie znaleziono pliku Cargo.toml w " ++ env.projectDir),
      Act.msg "   Upewnij się, że uruchamiasz skrypt w katalogu projektu Rust."])

/-- `RustBuilder.run_command` (src/build.py lines 104-158).  Captured and
live mode differ only in whether output is buffered, which the trace does not
model; `CalledProcessError` and any other `Exception` are caught and turn
into `false`, while `KeyboardInterrupt` propagates.  Timing and captured
output texts are elided from the messages. -/
def run_command (env : Env) (fs : Fs) (command : List String)
    (description : String) (liveOutput : Bool) :
    Except PyErr Bool × Fs × List Act :=
  let _ := liveOutput
  let tr0 : List Act :=
    [Act.msg ("🔄 " ++ description ++ "..."),
     Act.msg ("   Komenda: " ++ String.intercalate " " command),
     Act.runCmd command]
  let fs1 := env.cmdFs command fs
  match env.cmdRes command with
  | CmdRes.ok =>
      (Except.ok true, fs1, tr0 ++ [Act.msg ("✅ " ++ description ++ " ukończone")])
  | CmdRes.err code =>
      (Except.ok false, fs1,
       tr0 ++ [Act.msg ("❌ " ++ description ++ " nie powiodło się"),
               Act.msg ("   Kod błędu: " ++ toString code)])
  | CmdRes.exc =>
      (Except.ok false, fs1, tr0 ++ [Act.msg "❌ Nieoczekiwany błąd"])
  | CmdRes.interrupt =>
      (Except.error PyErr.keyboardInterrupt, fs1, tr0)

/-- `RustBuilder.clean_build` (src/build.py lines 160-178): `cargo clean`,
then (on success) an advisory check whether `target` still exists. -/
def clean_build (env : Env) (fs : Fs) (verbose : Bool) :
    Except PyErr Bool × Fs × List Act :=
  let hdr := [Act.msg "[1] Czyszczenie poprzedniej kompilacji"]
  match run_command env fs ["cargo", "clean"] "Czyszczenie cache kompilacji" verbose with
  | (Except.error e, fs1, tr) => (Except.error e, fs1, hdr ++ tr)
  | (Except.ok success, fs1, tr) =>
    let post : List Act :=
      if success then
        Act.statCheck (targetDirPath env) ::
          (if fs1.dirExists (targetDirPath env) then
             [Act.msg ("⚠️  Folder target nadal istnieje: " ++ targetDirPath env)]
           else
             [Act.msg "🗑️  Folder target został wyczyszczony"])
      else []
    (Except.ok success, fs1, hdr ++ tr ++ post)

/-- `RustBuilder.build_project` (src/build.py lines 180-211): `cargo build`
(always live), then on success a best-effort artifact report driven by
`detect_bin_name`; detection failure only prints a warning and skips the
existence check.  The returned flag is the build's own success. -/
def build_project (env : Env) (fs : Fs) (release : Bool) :
    Except PyErr Bool × Fs × List Act :=
  let mode := if release then "release" else "debug"
  let hdr := [Act.msg ("[2] Kompilacja projektu (tryb: " ++ mode ++ ")")]
  let command := ["cargo", "build"] ++ (if release then ["--release"] else [])
  match run_command env fs command ("Kompilacja w trybie " ++ mode) true with
  | (Except.error e, fs1, tr) => (Except.error e, fs1, hdr ++ tr)
  | (Except.ok success, fs1, tr) =>
    let post : List Act :=
      if success then
        match detect_bin_name env.readResult env.tomlResult with
        | some detected =>
          let exeDir := if release then "release" else "debug"
          let exeName := if env.osIsNt then detected ++ ".exe" else detected
          let exePath := pjoin (pjoin (targetDirPath env) exeDir) exeName
          Act.statCheck exePath ::
            (if (fs1.size exePath).isSome then
               [Act.msg ("📦 Plik wykonywalny utworzony: " ++ exePath)]
             else
               [Act.msg ("⚠️  Nie znaleziono spodziewanego pliku wykonywalnego: " ++ exePath)])
        | none =>
          [Act.msg "⚠️  Nie udało się wykryć nazwy binarki z Cargo.toml – pomijam sprawdzenie artefaktu."]
      else []
    (Except.ok success, fs1, hdr ++ tr ++ post)

/-- The clean-fallback block of `build_final` (src/build.py lines 227-239):
when `cargo clean` failed, a best-effort manual `shutil.rmtree` of `target`
with `ignore_errors=True`, wrapped in advisory messages; when the clean
succeeded, nothing. -/
def buildFinalFallback (env : Env) (fs1 : Fs) (cleanedOk : Bool) : Fs × List Act :=
  if cleanedOk then (fs1, [])
  else
    if fs1.dirExists (targetDirPath env) then
      let fsr := env.rmtreeFs (targetDirPath env) fs1
      (fsr,
       Act.statCheck (targetDirPath env) ::
       Act.msg ("⚠️  cargo clean nie powiodło się – próba usunięcia: " ++ targetDirPath env) ::
       Act.rmtree (targetDirPath env) ::
       Act.statCheck (targetDirPath env) ::
       (if fsr.dirExists (targetDirPath env) then
          [Act.msg "⚠️  Nie udało się w pełni usunąć folderu target (możliwe zablokowane pliki)"]
        else
          [Act.msg "🗑️  Folder target usunięty (fallback)"]))
    else (fs1, [Act.statCheck (targetDirPath env)])

/-- `RustBuilder.build_final` (src/build.py lines 213-270).  Note that the
`clean` parameter, although accepted, is never read by the body: the target
directory is always cleaned ("Zawsze spróbuj oczyścić..."), with a manual
`rmtree` fallback when `cargo clean` fails.  A successful `shutil.copy2`
gives the destination the source's byte count, which is what the final
`stat` reads. -/
def build_final (env : Env) (fs : Fs) (binName outDir : String)
    (clean verbose : Bool) : Except PyErr Bool × Fs × List Act :=
  let _ := clean
  let hdr : List Act :=
    [Act.msg "🚀 FINALNY BUILD APLIKACJI",
     Act.msg ("📁 Katalog projektu: " ++ env.projectDir),
     Act.msg "🦀 Tryb kompilacji: release",
     Act.msg ("🔧 Binarka: " ++ binName),
     Act.msg ("📤 Katalog wyjściowy: " ++ outDir)]
  match check_cargo_project env fs with
  | (false, trc) => (Except.ok false, fs, hdr ++ trc)
  | (true, trc) =>
    let tr1 := hdr ++ trc ++ [Act.msg "[0] Czyszczenie katalogu target"]
    match clean_build env fs verbose with
    | (Except.error e, fs1, trcl) => (Except.error e, fs1, tr1 ++ trcl)
    | (Except.ok cleanedOk, fs1, trcl) =>
      let tr2 := tr1 ++ trcl
      let fbr : Fs × List Act := buildFinalFallback env fs1 cleanedOk
      let fs2 := fbr.1
      let tr3 := tr2 ++ fbr.2 ++
        [Act.msg ("[1] Kompilacja binarki " ++ binName ++ " w trybie release")]
      let cmd := ["cargo", "build", "--release", "--bin", binName]
      match run_command env fs2 cmd ("Kompilacja " ++ binName ++ " (release)") true with
      | (Except.error e, fs3, trb) => (Except.error e, fs3, tr3 ++ trb)
      | (Except.ok ok, fs3, trb) =>
        let tr4 := tr3 ++ trb
        if ok then
          let bp := builtPath env binName
          let tr5 := tr4 ++ [Act.statCheck bp]
          if (fs3.size bp).isSome then
            let outPath := pjoin env.projectDir outDir
            let fs4 : Fs := { fs3 with dirExists := fun p => p == outPath || fs3.dirExists p }
            let fp := finalPath env binName outDir
            let tr6 := tr5 ++ [Act.mkdir outPath, Act.copy bp fp]
            if env.copyOk then
              let fs5 : Fs := { fs4 with size := fun p => if p = fp then fs4.size bp else fs4.size p }
              (Except.ok true, fs5,
               tr6 ++ [Act.msg ("✅ Finalny plik: " ++ fp),
                       Act.msg ("   Rozmiar: " ++ toString ((fs5.size fp).getD 0) ++ " B")])
            else
              (Except.ok false, fs4,
               tr6 ++ [Act.msg ("❌ Kopiowanie do " ++ fp ++ " nie powiodło się")])
          else
            (Except.ok false, fs3,
             tr5 ++ [Act.msg ("❌ Nie znaleziono skompilowanego pliku: " ++ bp)])
        else (Except.ok false, fs3, tr4)

/-- `RustBuilder.check_project` (src/build.py lines 272-281): `cargo check`
in captured mode. -/
def check_project (env : Env) (fs : Fs) : Except PyErr Bool × Fs × List Act :=
  let hdr := [Act.msg "[2] Sprawdzanie składni i typów"]
  match run_command env fs ["cargo", "check"] "Sprawdzanie składni" false with
  | (Except.error e, fs1, tr) => (Except.error e, fs1, hdr ++ tr)
  | (Except.ok success, fs1, tr) => (Except.ok success, fs1, hdr ++ tr)

/-- `RustBuilder.run_tests` (src/build.py lines 283-292): `cargo test`
in captured mode. -/
def run_tests (env : Env) (fs : Fs) : Except PyErr Bool × Fs × List Act :=
  let hdr := [Act.msg "[3] Uruchamianie testów"]
  match run_command env fs ["cargo", "test"] "Uruchamianie testów jednostkowych" false with
  | (Except.error e, fs1, tr) => (Except.error e, fs1, hdr ++ tr)
  | (Except.ok success, fs1, tr) => (Except.ok success, fs1, hdr ++ tr)

/-- The command `run_application` spawns. -/
def runAppCommand (exampleName : Option String) (release : Bool) : List String :=
  (match exampleName with
   | some ex => ["cargo", "run", "--example", ex]
   | none => ["cargo", "run"]) ++ (if release then ["--release"] else [])

/-- `RustBuilder.run_application` (src/build.py lines 294-323): spawns
`cargo run` directly (not through `run_command`); its own `try` catches
`KeyboardInterrupt` (prints the stop message, does **not** re-raise) and
`CalledProcessError` (prints the exit code); any other `Exception`
propagates to the caller. -/
def run_application (env : Env) (fs : Fs) (exampleName : Option String)
    (release : Bool) : Except PyErr Unit × Fs × List Act :=
  let hdr : List Act :=
    match exampleName with
    | some ex => [Act.msg ("[4] Uruchamianie przykładu: " ++ ex)]
    | none => [Act.msg "[4] Uruchamianie głównej aplikacji"]
  let command := runAppCommand exampleName release
  let pre := hdr ++
    [Act.msg "🚀 Uruchamianie...",
     Act.msg ("   Komenda: " ++ String.intercalate " " command),
     Act.msg "   (Naciśnij Ctrl+C aby zatrzymać aplikację)",
     Act.runCmd command]
  let fs1 := env.cmdFs command fs
  match env.cmdRes command with
  | CmdRes.ok => (Except.ok (), fs1, pre)
  | CmdRes.err code =>
      (Except.ok (), fs1,
       pre ++ [Act.msg ("❌ Aplikacja zakończyła się błędem (kod: " ++ toString code ++ ")")])
  | CmdRes.exc => (Except.error PyErr.otherExc, fs1, pre)
  | CmdRes.interrupt =>
      (Except.ok (), fs1, pre ++ [Act.msg "🛑 Aplikacja zatrzymana przez użytkownika"])

/-- Python `str.lower()`, character by character (the script only compares
the result against the ASCII answers below, for which per-character
lowering coincides with Python's). -/
def pyToLower (s : String) : String := String.mk (s.data.map Char.toLower)

/-- The affirmative answers of the run-confirmation prompt. -/
def yesResponses : List String := ["t", "tak", "y", "yes"]

/-- `RustBuilder.full_build_and_run` (src/build.py lines 325-360): validate,
clean (hard abort), build (hard abort), optional tests (warn-only), prompt,
optional run; returns `True` whenever it reaches the prompt. -/
def full_build_and_run (env : Env) (fs : Fs) (release runTestsFlag : Bool)
    (exampleName : Option String) (verbose : Bool) :
    Except PyErr Bool × Fs × List Act :=
  let hdr := [Act.msg "🔨 AUTOMATYCZNA KOMPILACJA PROJEKTU RUSTEXR"]
  match check_cargo_project env fs with
  | (false, trc) => (Except.ok false, fs, hdr ++ trc)
  | (true, trc) =>
    let info : List Act :=
      [Act.msg ("📁 Katalog projektu: " ++ env.projectDir),
       Act.msg ("🦀 Tryb kompilacji: " ++ (if release then "release" else "debug")),
       Act.msg ("🧪 Testy: " ++ (if runTestsFlag then "tak" else "nie"))] ++
      (match exampleName with
       | some ex => [Act.msg ("📝 Przykład: " ++ ex)]
       | none => [])
    let tr1 := hdr ++ trc ++ info
    match clean_build env fs verbose with
    | (Except.error e, fs1, trcl) => (Except.error e, fs1, tr1 ++ trcl)
    | (Except.ok cleanedOk, fs1, trcl) =>
      if !cleanedOk then
        (Except.ok false, fs1, tr1 ++ trcl ++ [Act.msg "❌ Proces przerwany na etapie czyszczenia"])
      else
        match build_project env fs1 release with
        | (Except.error e, fs2, trbp) => (Except.error e, fs2, tr1 ++ trcl ++ trbp)
        | (Except.ok builtOk, fs2, trbp) =>
          let tr2 := tr1 ++ trcl ++ trbp
          if !builtOk then
            (Except.ok false, fs2, tr2 ++ [Act.msg "❌ Proces przerwany na etapie kompilacji"])
          else
            let tst : Except PyErr Unit × Fs × List Act :=
              if runTestsFlag then
                match run_tests env fs2 with
                | (Except.error e, fs3, trt) => (Except.error e, fs3, trt)
                | (Except.ok testsOk, fs3, trt) =>
                  (Except.ok (), fs3,
                   trt ++ (if testsOk then [] else [Act.msg "⚠️  Testy nie przeszły, ale kontynuujemy..."]))
              else (Except.ok (), fs2, [])
            match tst with
            | (Except.error e, fs3, trt) => (Except.error e, fs3, tr2 ++ trt)
            | (Except.ok _, fs3, trt) =>
              let tr3 := tr2 ++ trt ++
                [Act.msg "🎯 Kompilacja zakończona pomyślnie!",
                 Act.prompt "❓ Czy chcesz uruchomić aplikację? (t/n): "]
              match env.input with
              | none => (Except.error PyErr.otherExc, fs3, tr3)
              | some resp =>
                if yesResponses.contains (pyToLower (pyStrip resp)) then
                  match run_application env fs3 exampleName release with
                  | (Except.error e, fs4, trr) => (Except.error e, fs4, tr3 ++ trr)
                  | (Except.ok _, fs4, trr) => (Except.ok true, fs4, tr3 ++ trr)
                else (Except.ok true, fs3, tr3)

/-- The parsed command-line flags of `main` (src/build.py lines 363-442).
`--project-dir` is resolved into `Env.projectDir` (the `RustBuilder`
constructor), so it is not repeated here.  Note that `debug`, `runTestsFlag`
and `example` are parsed but never read by `main`'s dispatch. -/
structure Args where
  debug : Bool
  verbose : Bool
  checkOnly : Bool
  cleanOnly : Bool
  clean : Bool
  runTestsFlag : Bool
  exampleName : Option String
  bin : String
  outDir : String

/-- The dispatch inside `main`'s top-level `try` (src/build.py lines
447-471), returning the `sys.exit` code or the escaping exception. -/
def mainBody (env : Env) (fs : Fs) (args : Args) :
    Except PyErr Nat × Fs × List Act :=
  if args.cleanOnly then
    let hdr := [Act.msg "🗑️  CZYSZCZENIE CACHE KOMPILACJI"]
    match check_cargo_project env fs with
    | (false, trc) => (Except.ok 1, fs, hdr ++ trc)
    | (true, trc) =>
      match clean_build env fs false with
      | (Except.error e, fs1, tr) => (Except.error e, fs1, hdr ++ trc ++ tr)
      | (Except.ok success, fs1, tr) =>
        (Except.ok (if success then 0 else 1), fs1, hdr ++ trc ++ tr)
  else if args.checkOnly then
    let hdr := [Act.msg "🔍 SPRAWDZANIE SKŁADNI PROJEKTU"]
    match check_cargo_project env fs with
    | (false, trc) => (Except.ok 1, fs, hdr ++ trc)
    | (true, trc) =>
      match clean_build env fs false with
      | (Except.error e, fs1, tr) => (Except.error e, fs1, hdr ++ trc ++ tr)
      | (Except.ok _, fs1, tr) =>
        match check_project env fs1 with
        | (Except.error e, fs2, tr2) => (Except.error e, fs2, hdr ++ trc ++ tr ++ tr2)
        | (Except.ok success, fs2, tr2) =>
          (Except.ok (if success then 0 else 1), fs2, hdr ++ trc ++ tr ++ tr2)
  else
    let hdr := [Act.msg "BUDOWANIE FINALNEGO ARTEFAKTU"]
    match check_cargo_project env fs with
    | (false, trc) => (Except.ok 1, fs, hdr ++ trc)
    | (true, trc) =>
      match build_final env fs args.bin args.outDir args.clean args.verbose with
      | (Except.error e, fs1, tr) => (Except.error e, fs1, hdr ++ trc ++ tr)
      | (Except.ok success, fs1, tr) =>
        (Except.ok (if success then 0 else 1), fs1, hdr ++ trc ++ tr)

/-- `main` (src/build.py lines 363-478): the dispatch wrapped in the
top-level handlers — `KeyboardInterrupt` gives exit code 130,
any other `Exception` exit code 1. -/
def mainEntry (env : Env) (fs : Fs) (args : Args) : Nat × Fs × List Act :=
  match mainBody env fs args with
  | (Except.ok code, fs1, tr) => (code, fs1, tr)
  | (Except.error PyErr.keyboardInterrupt, fs1, tr) =>
      (130, fs1, tr ++ [Act.msg "🛑 Proces przerwany przez użytkownika"])
  | (Except.error PyErr.otherExc, fs1, tr) =>
      (1, fs1, tr ++ [Act.msg "💥 Nieoczekiwany błąd"])

/-! ## Trace predicates -/

/-- No external command is spawned in the trace. -/
def actIsNotRunCmd : Act → Bool
  | Act.runCmd _ => false
  | _ => true

/-- The act is not the spawn of the given command. -/
def actIsNotCmd (c : List String) : Act → Bool
  | Act.runCmd c2 => !(c2 == c)
  | _ => true

/-- The act is neither a copy nor an existence check of the given path. -/
def actNotCopyNorStat (p : String) : Act → Bool
  | Act.copy _ _ => false
  | Act.statCheck q => !(q == p)
  | _ => true

/-- The act is not an `input()` prompt. -/
def actIsNotPrompt : Act → Bool
  | Act.prompt _ => false
  | _ => true

/-- The act is not an existence check. -/
def actIsNotStat : Act → Bool
  | Act.statCheck _ => false
  | _ => true

/-! ## The fallback scan's flag never resets (lemmas for the line scan) -/

theorem binHeader_not_name (line : String)
    (h : pyStartswith line "[[bin]]" = true) : pyStartswith line "name" = false := by
  unfold pyStartswith at h ⊢
  have hb : ("[[bin]]").data = ['[', '[', 'b', 'i', 'n', ']', ']'] := rfl
  have hn : ("name").data = ['n', 'a', 'm', 'e'] := rfl
  rw [hb] at h
  rw [hn]
  cases hd : line.data with
  | nil => rw [hd] at h; simp [List.isPrefixOf] at h
  | cons c cs =>
    rw [hd] at h
    simp [List.isPrefixOf] at h
    obtain ⟨hc, -⟩ := h
    subst hc
    simp [List.isPrefixOf]

/-- Once the `in_bin` flag is set, the scan is a plain search for the first
matching `name = "..."` line: no later section header clears the flag. -/
theorem binScan_true (l : List String) :
    binScan l true = l.findSome? nameMatchVal := by
  induction l with
  | nil => rfl
  | cons raw rest ih =>
    rw [binScan, List.findSome?]
    by_cases hb : pyStartswith (pyStrip raw) "[[bin]]" = true
    · have hn := binHeader_not_name _ hb
      rw [nameMatchVal]
      simp [hb, hn, ih]
    · have hb' : pyStartswith (pyStrip raw) "[[bin]]" = false := by
        revert hb; cases pyStartswith (pyStrip raw) "[[bin]]" <;> simp
      rw [nameMatchVal]
      simp only [hb', Bool.true_and, if_false]
      by_cases hc : (pyStartswith (pyStrip raw) "name" && (pyStrip raw).data.contains '=') = true
      · simp only [hc, if_true]
        cases tryExtract (pyStrip (String.mk (afterFirstEq (pyStrip raw).data))) with
        | none => simpa using ih
        | some v => simp
      · have hc' : (pyStartswith (pyStrip raw) "name" && (pyStrip raw).data.contains '=') = false := by
          revert hc; cases (pyStartswith (pyStrip raw) "name" && (pyStrip raw).data.contains '=') <;> simp
        simp only [hc', if_false, Bool.false_eq_true]
        simpa using ih

/-- The lines after the first line whose strip starts with `[[bin]]`. -/
def afterFirstBinHeader : List String → Option (List String)
  | [] => none
  | raw :: rest =>
    if pyStartswith (pyStrip raw) "[[bin]]" then some rest
    else afterFirstBinHeader rest

theorem binScan_false (l : List String) :
    binScan l false =
      (afterFirstBinHeader l).bind (fun rest => rest.findSome? nameMatchVal) := by
  induction l with
  | nil => rfl
  | cons raw rest ih =>
    rw [binScan, afterFirstBinHeader]
    by_cases hb : pyStartswith (pyStrip raw) "[[bin]]" = true
    · simp only [hb, if_true, Option.bind, binScan_true]
    · have hb' : pyStartswith (pyStrip raw) "[[bin]]" = false := by
        revert hb; cases pyStartswith (pyStrip raw) "[[bin]]" <;> simp
      simp only [hb', if_false, Bool.false_and, Bool.false_eq_true, ih]

/-- C10: When the structured (tomllib) parse stage fails, the line-oriented
fallback sets its inside-[[bin]] flag on the first `[[bin]]` line and never
resets it at later section headers: whatever the lines between them, the
first later line starting with `name` that carries `=` and a non-empty
double-quoted value is returned (even inside a different section such as
`[dependencies]`), rather than restricting the search to the `[[bin]]`
section.  First conjunct: with the flag set the scan is a plain
first-match search over all remaining lines; second conjunct: the value of
that first match after the first `[[bin]]` line is what `detect_bin_name`
returns. -/
theorem detect_bin_name_flag_never_resets :
    (∀ l : List String, binScan l true = l.findSome? nameMatchVal)
    ∧ (∀ (content : String) (v : String),
        (afterFirstBinHeader (pySplitlines content)).bind
            (fun rest => rest.findSome? nameMatchVal) = some v →
        detect_bin_name (some content) none = some v) := by
  constructor
  · exact binScan_true
  · intro content v h
    have hb : binScan (pySplitlines content) false = some v := by
      rw [binScan_false, h]
    simp only [detect_bin_name, lineFallback, hb]

/-- Witness for C10 at a concrete manifest: the `name` line sits inside a
later `[dependencies]` section, yet its value is returned. -/
theorem detect_bin_name_flag_never_resets_witness :
    detect_bin_name (some "[[bin]]\npath = \"src/main.rs\"\n\n[dependencies]\nname = \"tokio\"\n") none
      = some "tokio" := by
  apply detect_bin_name_flag_never_resets.2
  decide

/-! ## detectBinaryName: priority order and fallback (C4, C5) -/

/-- A manifest with a `[[bin]]` table that has no `name` key and a
`[dependencies]` table whose only key is `name`.  This is valid TOML;
`tomllib.loads` returns exactly `c4Data` below for it. -/
def c4Content : String :=
  "[[bin]]\npath = \"src/main.rs\"\n\n[dependencies]\nname = \"serde\"\n"

/-- `tomllib.loads c4Content`. -/
def c4Data : List (String × PyVal) :=
  [("bin", PyVal.list [PyVal.dict [("path", PyVal.str "src/main.rs")]]),
   ("dependencies", PyVal.dict [("name", PyVal.str "serde")])]

/-- C4, counterexample: the claim says a manifest with neither a `[[bin]]`
name field nor a `[package]` name yields absent (`None`).  On `c4Content`
the first `[[bin]]` table has no `name` field and there is no `[package]`
table at all — both facts stated below over the parsed data — yet
`detect_bin_name` returns `"serde"`: the tomllib stage finds neither name
and control continues into the line-oriented fallback, whose `[[bin]]` scan
picks up the `name` key of `[dependencies]`. -/
theorem detect_bin_name_counterexample_c4 :
    detect_bin_name (some c4Content) (some c4Data) = some "serde"
    ∧ pyGet c4Data "bin"
        = some (PyVal.list [PyVal.dict [("path", PyVal.str "src/main.rs")]])
    ∧ pyGet [("path", PyVal.str "src/main.rs")] "name" = none
    ∧ pyGet c4Data "package" = none := by
  refine ⟨?_, rfl, rfl, rfl⟩
  rfl

def c4Manifest1 : String := "[[bin]]\nname = \"foo\"\n\n[package]\nname = \"bar\"\n"

def c4Toml1 : List (String × PyVal) :=
  [("bin", PyVal.list [PyVal.dict [("name", PyVal.str "foo")]]),
   ("package", PyVal.dict [("name", PyVal.str "bar")])]

def c4Manifest2 : String := "[package]\nname = \"bar\"\n"

def c4Toml2 : List (String × PyVal) := [("package", PyVal.dict [("name", PyVal.str "bar")])]

def c4Manifest3 : String := "[dependencies]\nserde = \"1.0\"\n"

def c4Toml3 : List (String × PyVal) := [("dependencies", PyVal.dict [("serde", PyVal.str "1.0")])]

/-- C4 (amended): `detect_bin_name` prefers, in order, the name field of the
first explicit `[[bin]]` declaration, then the `[package]` name; when the
structured stage finds neither, the result comes from the line-oriented
fallback scan of the raw text (which can still return a quoted value from
any line starting with `name`), and only when that also finds nothing is the
result absent.  Conjuncts: (1) a parseable non-empty `[[bin]]` name wins
regardless of everything else; (2) with no `bin` key, a parseable non-empty
`[package]` name is returned; (3-5) the claim's three concrete examples,
through the structured stage; (6-8) the same three manifests through the
line-oriented fallback (structured stage unavailable). -/
theorem detect_bin_name_priority :
    (∀ (content : String) (data : List (String × PyVal)) (d : List (String × PyVal))
        (rest : List PyVal) (s : String),
      pyGet data "bin" = some (PyVal.list (PyVal.dict d :: rest)) →
      pyGet d "name" = some (PyVal.str s) →
      (pyStrip s).isEmpty = false →
      detect_bin_name (some content) (some data) = some (pyStrip s))
    ∧ (∀ (content : String) (data : List (String × PyVal)) (d : List (String × PyVal))
          (s : String),
      pyGet data "bin" = none →
      pyGet data "package" = some (PyVal.dict d) →
      pyGet d "name" = some (PyVal.str s) →
      (pyStrip s).isEmpty = false →
      detect_bin_name (some content) (some data) = some (pyStrip s))
    ∧ detect_bin_name (some c4Manifest1) (some c4Toml1) = some "foo"
    ∧ detect_bin_name (some c4Manifest2) (some c4Toml2) = some "bar"
    ∧ detect_bin_name (some c4Manifest3) (some c4Toml3) = none
    ∧ detect_bin_name (some c4Manifest1) none = some "foo"
    ∧ detect_bin_name (some c4Manifest2) none = some "bar"
    ∧ detect_bin_name (some c4Manifest3) none = none := by
  refine ⟨?_, ?_, by decide, by decide, by decide, by decide, by decide, by decide⟩
  · intro content data d rest s hbin hname hne
    simp only [detect_bin_name, tomlStage, tomlBinLookup, hbin, hname, hne,
      Bool.false_eq_true, if_false]
  · intro content data d s hbin hpkg hname hne
    simp only [detect_bin_name, tomlStage, tomlBinLookup, tomlPkgLookup,
      hbin, hpkg, hname, hne, Bool.false_eq_true, if_false]

/-- Witness for C4's amended theorem: the two priority conjuncts applied at
concrete data. -/
theorem detect_bin_name_priority_witness :
    detect_bin_name (some "") (some c4Toml1) = some "foo"
    ∧ detect_bin_name (some "") (some c4Toml2) = some "bar" := by
  constructor
  · exact detect_bin_name_priority.1 ""
      c4Toml1 [("name", PyVal.str "foo")] [] "foo" rfl rfl rfl
  · exact detect_bin_name_priority.2.1 ""
      c4Toml2 [("name", PyVal.str "bar")] "bar" rfl rfl rfl rfl

/-- C5: `detect_bin_name` never raises — every stage's failure falls through
(read failure and total failure yield `none`), and `build_project` treats
absence by printing a warning and skipping the artifact existence check
while still returning the build's own success. -/
theorem detect_failure_is_nonfatal :
    (∀ tomlResult, detect_bin_name none tomlResult = none)
    ∧ (∀ (env : Env) (fs : Fs) (release : Bool),
        detect_bin_name env.readResult env.tomlResult = none →
        env.cmdRes (["cargo", "build"] ++ (if release then ["--release"] else []))
          = CmdRes.ok →
        (build_project env fs release).1 = Except.ok true
        ∧ Act.msg "⚠️  Nie udało się wykryć nazwy binarki z Cargo.toml – pomijam sprawdzenie artefaktu."
            ∈ (build_project env fs release).2.2
        ∧ ((build_project env fs release).2.2.all actIsNotStat) = true) := by
  constructor
  · intro tomlResult; rfl
  · intro env fs release hdet hcmd
    have hcmd2 : env.cmdRes ("cargo" :: "build" :: (if release then ["--release"] else []))
        = CmdRes.ok := by simpa using hcmd
    simp [build_project, run_command, hdet, hcmd2, actIsNotStat]

def idFx : List String → Fs → Fs := fun _ f => f

def idRm : String → Fs → Fs := fun _ f => f

def emptyFs : Fs := { size := fun _ => none, dirExists := fun _ => false }

def c5Env : Env :=
  { projectDir := ".", osIsNt := false, readResult := none, tomlResult := none,
    cmdRes := fun _ => CmdRes.ok, cmdFs := idFx, rmtreeFs := idRm,
    copyOk := true, input := none }

/-- Witness for C5 at a concrete environment whose manifest is unreadable. -/
theorem detect_failure_is_nonfatal_witness :
    (build_project c5Env emptyFs true).1 = Except.ok true
    ∧ Act.msg "⚠️  Nie udało się wykryć nazwy binarki z Cargo.toml – pomijam sprawdzenie artefaktu."
        ∈ (build_project c5Env emptyFs true).2.2
    ∧ ((build_project c5Env emptyFs true).2.2.all actIsNotStat) = true :=
  detect_failure_is_nonfatal.2 c5Env emptyFs true rfl rfl

/-- C3: `check_cargo_project` is true exactly when the manifest file exists
directly under the project root (it never reads the contents), and with the
manifest missing every CLI dispatch prints the diagnostic and exits with
code 1 without spawning any external command. -/
theorem validateProject_iff_manifest_and_abort :
    (∀ (env : Env) (fs : Fs),
      (check_cargo_project env fs).1 = (fs.size (cargoTomlPath env)).isSome)
    ∧ (∀ (env : Env) (fs : Fs) (args : Args),
        (fs.size (cargoTomlPath env)).isSome = false →
        (mainEntry env fs args).1 = 1
        ∧ ((mainEntry env fs args).2.2.all actIsNotRunCmd) = true
        ∧ Act.msg ("❌ Błąd: Nie znaleziono pliku Cargo.toml w " ++ env.projectDir)
            ∈ (mainEntry env fs args).2.2) := by
  constructor
  · intro env fs
    cases h : (fs.size (cargoTomlPath env)).isSome <;> simp [check_cargo_project, h]
  · intro env fs args h
    cases hco : args.cleanOnly <;> cases hch : args.checkOnly <;>
      simp [mainEntry, mainBody, build_final, check_cargo_project, h, hco, hch,
        actIsNotRunCmd]

def c3Env : Env :=
  { projectDir := "/proj", osIsNt := false, readResult := none, tomlResult := none,
    cmdRes := fun _ => CmdRes.ok, cmdFs := idFx, rmtreeFs := idRm,
    copyOk := true, input := none }

def c3Args : Args :=
  { debug := false, verbose := false, checkOnly := false, cleanOnly := false,
    clean := false, runTestsFlag := false, exampleName := none,
    bin := "EXruster_nightly", outDir := "dist" }

/-- Witness for C3 at a concrete root with no manifest. -/
theorem validateProject_iff_manifest_and_abort_witness :
    (mainEntry c3Env emptyFs c3Args).1 = 1
    ∧ ((mainEntry c3Env emptyFs c3Args).2.2.all actIsNotRunCmd) = true
    ∧ Act.msg ("❌ Błąd: Nie znaleziono pliku Cargo.toml w /proj")
        ∈ (mainEntry c3Env emptyFs c3Args).2.2 :=
  validateProject_iff_manifest_and_abort.2 c3Env emptyFs c3Args rfl

/-! ## Compositional trace lemmas

Each lemma bounds the acts a workflow function can emit: a predicate `p`
that holds of every message and of the specific spawns/checks the function
performs holds of its whole trace. -/

theorem all_check_cargo_project (p : Act → Bool) (env : Env) (fs : Fs)
    (hm : ∀ s, p (Act.msg s) = true)
    (hstC : p (Act.statCheck (cargoTomlPath env)) = true) :
    ((check_cargo_project env fs).2.all p) = true := by
  cases h : (fs.size (cargoTomlPath env)).isSome <;>
    simp [check_cargo_project, h, hm, hstC]

theorem all_run_command (p : Act → Bool) (env : Env) (fs : Fs)
    (c : List String) (d : String) (l : Bool)
    (hm : ∀ s, p (Act.msg s) = true) (hc : p (Act.runCmd c) = true) :
    ((run_command env fs c d l).2.2.all p) = true := by
  cases h : env.cmdRes c <;> simp [run_command, h, hm, hc]

theorem all_clean_build (p : Act → Bool) (env : Env) (fs : Fs) (v : Bool)
    (hm : ∀ s, p (Act.msg s) = true)
    (hstT : p (Act.statCheck (targetDirPath env)) = true)
    (hc : p (Act.runCmd ["cargo", "clean"]) = true) :
    ((clean_build env fs v).2.2.all p) = true := by
  rcases hcmd : run_command env fs ["cargo", "clean"] "Czyszczenie cache kompilacji" v
    with ⟨r, fs1, tr⟩
  have htr : tr.all p = true := by
    have h2 := all_run_command p env fs ["cargo", "clean"] "Czyszczenie cache kompilacji" v hm hc
    rw [hcmd] at h2; exact h2
  cases r with
  | error e => simp [clean_build, hcmd, hm, htr]
  | ok success =>
    cases success with
    | false => simp [clean_build, hcmd, hm, htr]
    | true =>
      simp only [clean_build, hcmd]
      repeat' split
      all_goals simp [hm, hstT, htr]

theorem all_build_project (p : Act → Bool) (env : Env) (fs : Fs) (rel : Bool)
    (hm : ∀ s, p (Act.msg s) = true)
    (hst : ∀ q, p (Act.statCheck q) = true)
    (hc : p (Act.runCmd ("cargo" :: "build" :: (if rel then ["--release"] else []))) = true) :
    ((build_project env fs rel).2.2.all p) = true := by
  rcases hcmd : run_command env fs ("cargo" :: "build" :: (if rel then ["--release"] else []))
      ("Kompilacja w trybie " ++ (if rel then "release" else "debug")) true
    with ⟨r, fs1, tr⟩
  have htr : tr.all p = true := by
    have h2 := all_run_command p env fs
      ("cargo" :: "build" :: (if rel then ["--release"] else []))
      ("Kompilacja w trybie " ++ (if rel then "release" else "debug")) true hm hc
    rw [hcmd] at h2; exact h2
  cases r with
  | error e => simp [build_project, hcmd, hm, htr]
  | ok success =>
    cases success with
    | false => simp [build_project, hcmd, hm, htr]
    | true =>
      cases hdet : detect_bin_name env.readResult env.tomlResult with
      | none => simp [build_project, hcmd, hdet, hm, hst, htr]
      | some detected =>
        simp only [build_project, List.cons_append, List.nil_append, hcmd, hdet]
        repeat' split
        all_goals simp [hm, hst, htr]

theorem all_check_project (p : Act → Bool) (env : Env) (fs : Fs)
    (hm : ∀ s, p (Act.msg s) = true)
    (hc : p (Act.runCmd ["cargo", "check"]) = true) :
    ((check_project env fs).2.2.all p) = true := by
  rcases hcmd : run_command env fs ["cargo", "check"] "Sprawdzanie składni" false
    with ⟨r, fs1, tr⟩
  have htr : tr.all p = true := by
    have h2 := all_run_command p env fs ["cargo", "check"] "Sprawdzanie składni" false hm hc
    rw [hcmd] at h2; exact h2
  cases r <;> simp [check_project, hcmd, hm, htr]

theorem all_buildFinalFallback (p : Act → Bool) (env : Env) (fs1 : Fs) (b : Bool)
    (hm : ∀ s, p (Act.msg s) = true)
    (hstT : p (Act.statCheck (targetDirPath env)) = true)
    (hrm : p (Act.rmtree (targetDirPath env)) = true) :
    ((buildFinalFallback env fs1 b).2.all p) = true := by
  unfold buildFinalFallback
  repeat' split
  all_goals simp [hm, hstT, hrm]
  all_goals (split <;> simp [hm])

theorem all_build_final (p : Act → Bool) (env : Env) (fs : Fs)
    (bn od : String) (c v : Bool)
    (hm : ∀ s, p (Act.msg s) = true)
    (hstC : p (Act.statCheck (cargoTomlPath env)) = true)
    (hstT : p (Act.statCheck (targetDirPath env)) = true)
    (hstB : p (Act.statCheck (builtPath env bn)) = true)
    (hrm : p (Act.rmtree (targetDirPath env)) = true)
    (hmk : p (Act.mkdir (pjoin env.projectDir od)) = true)
    (hcpA : p (Act.copy (builtPath env bn) (finalPath env bn od)) = true)
    (hclean : p (Act.runCmd ["cargo", "clean"]) = true)
    (hbuild : p (Act.runCmd ["cargo", "build", "--release", "--bin", bn]) = true) :
    ((build_final env fs bn od c v).2.2.all p) = true := by
  rcases hchk : check_cargo_project env fs with ⟨b2, trc⟩
  have htrc : trc.all p = true := by
    have h2 := all_check_cargo_project p env fs hm hstC
    rw [hchk] at h2; exact h2
  cases b2 with
  | false => simp [build_final, hchk, hm, htrc]
  | true =>
    rcases hcl : clean_build env fs v with ⟨rcl, fs1, trcl⟩
    have htrcl : trcl.all p = true := by
      have h2 := all_clean_build p env fs v hm hstT hclean
      rw [hcl] at h2; exact h2
    cases rcl with
    | error e => simp [build_final, hchk, hcl, hm, htrc, htrcl]
    | ok cleanedOk =>
      rcases hfbr : buildFinalFallback env fs1 cleanedOk with ⟨fs2, tr2⟩
      have htr2 : tr2.all p = true := by
        have h2 := all_buildFinalFallback p env fs1 cleanedOk hm hstT hrm
        rw [hfbr] at h2; exact h2
      rcases hbc : run_command env fs2 ["cargo", "build", "--release", "--bin", bn]
          ("Kompilacja " ++ bn ++ " (release)") true with ⟨rb, fs3, trb⟩
      have htrb : trb.all p = true := by
        have h2 := all_run_command p env fs2 ["cargo", "build", "--release", "--bin", bn]
          ("Kompilacja " ++ bn ++ " (release)") true hm hbuild
        rw [hbc] at h2; exact h2
      cases rb with
      | error e => simp [build_final, hchk, hcl, hfbr, hbc, hm, htrc, htrcl, htr2, htrb]
      | ok ok2 =>
        cases ok2 with
        | false => simp [build_final, hchk, hcl, hfbr, hbc, hm, htrc, htrcl, htr2, htrb]
        | true =>
          cases hsz : (fs3.size (builtPath env bn)).isSome with
          | false =>
            simp [build_final, hchk, hcl, hfbr, hbc, hsz, hm, hstB, htrc, htrcl, htr2, htrb]
          | true =>
            cases hcpy : env.copyOk <;>
              simp [build_final, hchk, hcl, hfbr, hbc, hsz, hcpy, hm, hstB, hmk, hcpA,
                htrc, htrcl, htr2, htrb]

theorem all_mainBody (p : Act → Bool) (env : Env) (fs : Fs) (args : Args)
    (hm : ∀ s, p (Act.msg s) = true)
    (hstC : p (Act.statCheck (cargoTomlPath env)) = true)
    (hstT : p (Act.statCheck (targetDirPath env)) = true)
    (hstB : p (Act.statCheck (builtPath env args.bin)) = true)
    (hrm : p (Act.rmtree (targetDirPath env)) = true)
    (hmk : p (Act.mkdir (pjoin env.projectDir args.outDir)) = true)
    (hcpA : p (Act.copy (builtPath env args.bin) (finalPath env args.bin args.outDir)) = true)
    (hclean : p (Act.runCmd ["cargo", "clean"]) = true)
    (hcheck : p (Act.runCmd ["cargo", "check"]) = true)
    (hbuild : p (Act.runCmd ["cargo", "build", "--release", "--bin", args.bin]) = true) :
    ((mainBody env fs args).2.2.all p) = true := by
  rcases hchk : check_cargo_project env fs with ⟨b, trc⟩
  have htrc : trc.all p = true := by
    have h2 := all_check_cargo_project p env fs hm hstC
    rw [hchk] at h2; exact h2
  rcases hcl : clean_build env fs false with ⟨rcl, fs1, trcl⟩
  have htrcl : trcl.all p = true := by
    have h2 := all_clean_build p env fs false hm hstT hclean
    rw [hcl] at h2; exact h2
  cases hco : args.cleanOnly with
  | true =>
    cases b with
    | false => simp [mainBody, hco, hchk, hm, htrc]
    | true =>
      cases rcl with
      | error e => simp [mainBody, hco, hchk, hcl, hm, htrc, htrcl]
      | ok success => cases success <;> simp [mainBody, hco, hchk, hcl, hm, htrc, htrcl]
  | false =>
    cases hch : args.checkOnly with
    | true =>
      cases b with
      | false => simp [mainBody, hco, hch, hchk, hm, htrc]
      | true =>
        cases rcl with
        | error e => simp [mainBody, hco, hch, hchk, hcl, hm, htrc, htrcl]
        | ok success =>
          rcases hcp2 : check_project env fs1 with ⟨rcp, fs2, trcp⟩
          have htrcp : trcp.all p = true := by
            have h2 := all_check_project p env fs1 hm hcheck
            rw [hcp2] at h2; exact h2
          cases rcp with
          | error e => simp [mainBody, hco, hch, hchk, hcl, hcp2, hm, htrc, htrcl, htrcp]
          | ok s2 => simp [mainBody, hco, hch, hchk, hcl, hcp2, hm, htrc, htrcl, htrcp]
    | false =>
      cases b with
      | false => simp [mainBody, hco, hch, hchk, hm, htrc]
      | true =>
        rcases hbf : build_final env fs args.bin args.outDir args.clean args.verbose
          with ⟨rbf, fs1b, trbf⟩
        have htrbf : trbf.all p = true := by
          have h2 := all_build_final p env fs args.bin args.outDir args.clean args.verbose
            hm hstC hstT hstB hrm hmk hcpA hclean hbuild
          rw [hbf] at h2; exact h2
        cases rbf with
        | error e => simp [mainBody, hco, hch, hchk, hbf, hm, htrc, htrbf]
        | ok s2 => simp [mainBody, hco, hch, hchk, hbf, hm, htrc, htrbf]

theorem all_mainEntry (p : Act → Bool) (env : Env) (fs : Fs) (args : Args)
    (hm : ∀ s, p (Act.msg s) = true)
    (hstC : p (Act.statCheck (cargoTomlPath env)) = true)
    (hstT : p (Act.statCheck (targetDirPath env)) = true)
    (hstB : p (Act.statCheck (builtPath env args.bin)) = true)
    (hrm : p (Act.rmtree (targetDirPath env)) = true)
    (hmk : p (Act.mkdir (pjoin env.projectDir args.outDir)) = true)
    (hcpA : p (Act.copy (builtPath env args.bin) (finalPath env args.bin args.outDir)) = true)
    (hclean : p (Act.runCmd ["cargo", "clean"]) = true)
    (hcheck : p (Act.runCmd ["cargo", "check"]) = true)
    (hbuild : p (Act.runCmd ["cargo", "build", "--release", "--bin", args.bin]) = true) :
    ((mainEntry env fs args).2.2.all p) = true := by
  have hbody := all_mainBody p env fs args hm hstC hstT hstB hrm hmk hcpA hclean hcheck hbuild
  rcases hmb : mainBody env fs args with ⟨r, fs1, tr⟩
  rw [hmb] at hbody
  cases r with
  | ok code => simp [mainEntry, hmb, hbody]
  | error e => cases e <;> simp [mainEntry, hmb, hm, hbody]

theorem buildCmd_beq_testCmd (b : String) :
    ((["cargo", "build", "--release", "--bin", b] : List String) == ["cargo", "test"]) = false := by
  simp

/-- C7: no command-line flag reaches the alternate `full_build_and_run`
workflow, and in particular `--run-tests` never causes tests to run: for
every environment and every combination of parsed flags (including
`runTestsFlag = true`), the CLI dispatch never shows the run-confirmation
prompt (the distinctive step of `full_build_and_run`) and never spawns
`cargo test`.  `main` dispatches only to clean-only, check-only or
`build_final`; `full_build_and_run` is never called. -/
theorem cli_never_reaches_full_build_and_run :
    ∀ (env : Env) (fs : Fs) (args : Args),
      ((mainEntry env fs args).2.2.all actIsNotPrompt) = true
      ∧ ((mainEntry env fs args).2.2.all (actIsNotCmd ["cargo", "test"])) = true := by
  intro env fs args
  constructor
  · exact all_mainEntry actIsNotPrompt env fs args
      (fun _ => rfl) rfl rfl rfl rfl rfl rfl rfl rfl rfl
  · exact all_mainEntry (actIsNotCmd ["cargo", "test"]) env fs args
      (fun _ => rfl) rfl rfl rfl rfl rfl rfl
      (by simp [actIsNotCmd]) (by simp [actIsNotCmd])
      (by simp [actIsNotCmd, buildCmd_beq_testCmd])

/-! ## Path disambiguation -/

theorem pjoin_length (a b : String) : (pjoin a b).length = a.length + 1 + b.length := by
  have h1 : ("/" : String).length = 1 := rfl
  simp [pjoin, String.length_append, h1]

theorem targetDir_not_builtPath (env : Env) (b : String) :
    (targetDirPath env == builtPath env b) = false := by
  rw [beq_eq_false_iff_ne]
  intro h
  have hlen := congrArg String.length h
  have h7 : ("release" : String).length = 7 := rfl
  rw [builtPath] at hlen
  simp only [pjoin_length, h7] at hlen
  omega

theorem cargoToml_not_builtPath (env : Env) (b : String) :
    (cargoTomlPath env == builtPath env b) = false := by
  rw [beq_eq_false_iff_ne]
  intro h
  have hlen := congrArg String.length h
  have h6 : ("target" : String).length = 6 := rfl
  have h7 : ("release" : String).length = 7 := rfl
  have h10 : ("Cargo.toml" : String).length = 10 := rfl
  rw [cargoTomlPath, builtPath, targetDirPath] at hlen
  simp only [pjoin_length, h6, h7, h10] at hlen
  omega

theorem clean_build_result (env : Env) (fs : Fs) (v : Bool)
    (h : env.cmdRes ["cargo", "clean"] ≠ CmdRes.interrupt) :
    (clean_build env fs v).1 = Except.ok (env.cmdRes ["cargo", "clean"] == CmdRes.ok) := by
  cases hc : env.cmdRes ["cargo", "clean"] <;>
    first
      | exact absurd hc h
      | simp [clean_build, run_command, hc]

/-- C2: whenever the default final-build workflow's external build command
exits nonzero, `build_final` returns false without ever checking the built
artifact's existence or attempting a copy, and the process exit code is 1.
The trace predicate `actNotCopyNorStat (builtPath ...)` states that the
whole trace contains no copy act and no existence check of the artifact
(the existence checks that do occur are of the manifest and of `target`,
distinguished by `cargoToml_not_builtPath` / `targetDir_not_builtPath`). -/
theorem build_failure_blocks_copy_and_exit :
    ∀ (env : Env) (fs : Fs) (args : Args) (code : Int),
      args.cleanOnly = false → args.checkOnly = false →
      (fs.size (cargoTomlPath env)).isSome = true →
      env.cmdRes ["cargo", "clean"] ≠ CmdRes.interrupt →
      env.cmdRes ["cargo", "build", "--release", "--bin", args.bin] = CmdRes.err code →
      (build_final env fs args.bin args.outDir args.clean args.verbose).1 = Except.ok false
      ∧ ((build_final env fs args.bin args.outDir args.clean args.verbose).2.2.all
          (actNotCopyNorStat (builtPath env args.bin))) = true
      ∧ (mainEntry env fs args).1 = 1
      ∧ ((mainEntry env fs args).2.2.all (actNotCopyNorStat (builtPath env args.bin))) = true := by
  intro env fs args code h1 h2 h3 h4 h5
  have hm : ∀ s, actNotCopyNorStat (builtPath env args.bin) (Act.msg s) = true := fun _ => rfl
  have hstT : actNotCopyNorStat (builtPath env args.bin) (Act.statCheck (targetDirPath env)) = true := by
    simp [actNotCopyNorStat, targetDir_not_builtPath]
  have hstC : actNotCopyNorStat (builtPath env args.bin) (Act.statCheck (cargoTomlPath env)) = true := by
    simp [actNotCopyNorStat, cargoToml_not_builtPath]
  have hchk : check_cargo_project env fs = (true, [Act.statCheck (cargoTomlPath env)]) := by
    simp [check_cargo_project, h3]
  rcases hcl : clean_build env fs args.verbose with ⟨rcl, fs1, trcl⟩
  have hrcl : rcl = Except.ok (env.cmdRes ["cargo", "clean"] == CmdRes.ok) := by
    have h6 := clean_build_result env fs args.verbose h4
    rw [hcl] at h6; exact h6
  subst hrcl
  have htrcl : trcl.all (actNotCopyNorStat (builtPath env args.bin)) = true := by
    have h6 := all_clean_build (actNotCopyNorStat (builtPath env args.bin)) env fs
      args.verbose hm hstT rfl
    rw [hcl] at h6; exact h6
  rcases hfbr : buildFinalFallback env fs1 (env.cmdRes ["cargo", "clean"] == CmdRes.ok)
    with ⟨fs2, tr2⟩
  have htr2 : tr2.all (actNotCopyNorStat (builtPath env args.bin)) = true := by
    have h6 := all_buildFinalFallback (actNotCopyNorStat (builtPath env args.bin)) env fs1
      (env.cmdRes ["cargo", "clean"] == CmdRes.ok) hm hstT rfl
    rw [hfbr] at h6; exact h6
  have hbfA : (build_final env fs args.bin args.outDir args.clean args.verbose).1
      = Except.ok false := by
    simp [build_final, hchk, hcl, hfbr, run_command, h5]
  have hbfB : ((build_final env fs args.bin args.outDir args.clean args.verbose).2.2.all
      (actNotCopyNorStat (builtPath env args.bin))) = true := by
    simp [build_final, hchk, hcl, hfbr, run_command, h5, actNotCopyNorStat,
      cargoToml_not_builtPath, htrcl, htr2]
  refine ⟨hbfA, hbfB, ?_, ?_⟩
  · rcases hbf : build_final env fs args.bin args.outDir args.clean args.verbose
      with ⟨rbf, fsb, trbf⟩
    rw [hbf] at hbfA
    simp only at hbfA
    simp [mainEntry, mainBody, h1, h2, hchk, hbf, hbfA]
  · rcases hbf : build_final env fs args.bin args.outDir args.clean args.verbose
      with ⟨rbf, fsb, trbf⟩
    rw [hbf] at hbfA hbfB
    simp only at hbfA hbfB
    simp [mainEntry, mainBody, h1, h2, hchk, hbf, hbfA, hbfB, hm, hstC]

def c2Env : Env :=
  { projectDir := ".", osIsNt := false, readResult := none, tomlResult := none,
    cmdRes := fun c =>
      if c = ["cargo", "build", "--release", "--bin", "EXruster_nightly"] then CmdRes.err 101
      else CmdRes.ok,
    cmdFs := idFx, rmtreeFs := idRm, copyOk := true, input := none }

def c2Fs : Fs :=
  { size := fun p => if p = "./Cargo.toml" then some 100 else none,
    dirExists := fun _ => false }

def c2Args : Args :=
  { debug := false, verbose := false, checkOnly := false, cleanOnly := false,
    clean := false, runTestsFlag := false, exampleName := none,
    bin := "EXruster_nightly", outDir := "dist" }

/-- Witness for C2 at a concrete environment whose build command exits 101. -/
theorem build_failure_blocks_copy_and_exit_witness :
    (build_final c2Env c2Fs "EXruster_nightly" "dist" false false).1 = Except.ok false
    ∧ ((build_final c2Env c2Fs "EXruster_nightly" "dist" false false).2.2.all
        (actNotCopyNorStat (builtPath c2Env "EXruster_nightly"))) = true
    ∧ (mainEntry c2Env c2Fs c2Args).1 = 1
    ∧ ((mainEntry c2Env c2Fs c2Args).2.2.all
        (actNotCopyNorStat (builtPath c2Env "EXruster_nightly"))) = true :=
  build_failure_blocks_copy_and_exit c2Env c2Fs c2Args 101 rfl rfl (by decide)
    (by decide) (by decide)

/-- External effects that leave the observed filesystem unchanged (used to
state reachability hypotheses for specific `build_final` paths). -/
def inertFx (env : Env) : Prop :=
  (∀ c f, env.cmdFs c f = f) ∧ (∀ q f, env.rmtreeFs q f = f)

theorem clean_build_fs (env : Env) (fs : Fs) (v : Bool) :
    (clean_build env fs v).2.1 = env.cmdFs ["cargo", "clean"] fs := by
  cases hc : env.cmdRes ["cargo", "clean"] <;> simp [clean_build, run_command, hc]

theorem buildFinalFallback_fs (env : Env) (f : Fs) (b : Bool)
    (hfx : ∀ q g, env.rmtreeFs q g = g) :
    (buildFinalFallback env f b).1 = f := by
  unfold buildFinalFallback
  repeat' split
  all_goals simp [hfx]

/-- C1: `build_final` reports success only if the copied destination file
exists and its size equals the size of the freshly built artifact at
`target/release/<exe_name>`; a missing built artifact, or a copy failure,
yields a diagnostic message and `false`.  Conjunct 1: on any run that
returns true, in the resulting filesystem the destination exists and its
size equals the built artifact's.  Conjunct 2: with the build succeeding
but the artifact absent, the result is false and the missing-file
diagnostic is printed.  Conjunct 3: with the artifact present but the copy
failing, the result is false and the copy diagnostic is printed.
Conjuncts 2 and 3 fix the external commands to have no filesystem effect
(`inertFx`) so that the artifact's state at check time is the stated one. -/
theorem buildFinal_success_requires_copied_artifact :
    (∀ (env : Env) (fs : Fs) (bn od : String) (c v : Bool)
        (rbf : Except PyErr Bool) (fsb : Fs) (trb : List Act),
      build_final env fs bn od c v = (rbf, fsb, trb) →
      rbf = Except.ok true →
      (fsb.size (finalPath env bn od)).isSome = true
      ∧ fsb.size (finalPath env bn od) = fsb.size (builtPath env bn))
    ∧ (∀ (env : Env) (fs : Fs) (bn od : String) (c v : Bool),
      inertFx env →
      (fs.size (cargoTomlPath env)).isSome = true →
      env.cmdRes ["cargo", "clean"] ≠ CmdRes.interrupt →
      env.cmdRes ["cargo", "build", "--release", "--bin", bn] = CmdRes.ok →
      fs.size (builtPath env bn) = none →
      (build_final env fs bn od c v).1 = Except.ok false
      ∧ Act.msg ("❌ Nie znaleziono skompilowanego pliku: " ++ builtPath env bn)
          ∈ (build_final env fs bn od c v).2.2)
    ∧ (∀ (env : Env) (fs : Fs) (bn od : String) (c v : Bool) (n : Nat),
      inertFx env →
      (fs.size (cargoTomlPath env)).isSome = true →
      env.cmdRes ["cargo", "clean"] ≠ CmdRes.interrupt →
      env.cmdRes ["cargo", "build", "--release", "--bin", bn] = CmdRes.ok →
      fs.size (builtPath env bn) = some n →
      env.copyOk = false →
      (build_final env fs bn od c v).1 = Except.ok false
      ∧ Act.msg ("❌ Kopiowanie do " ++ finalPath env bn od ++ " nie powiodło się")
          ∈ (build_final env fs bn od c v).2.2) := by
  refine ⟨?_, ?_, ?_⟩
  · intro env fs bn od c v rbf fsb trb hR hok
    subst hok
    simp only [build_final] at hR
    repeat' split at hR
    all_goals simp at hR
    all_goals try (exact absurd trivial ‹¬True›)
    obtain ⟨hfs, -⟩ := hR
    subst hfs
    constructor
    · simp_all
    · simp_all
      split
      · rename_i hEq
        rw [hEq]
      · rfl
  · intro env fs bn od c v hfx h3 h4 hb hmiss
    have hchk : check_cargo_project env fs = (true, [Act.statCheck (cargoTomlPath env)]) := by
      simp [check_cargo_project, h3]
    rcases hcl : clean_build env fs v with ⟨rcl, fs1, trcl⟩
    have hrcl : rcl = Except.ok (env.cmdRes ["cargo", "clean"] == CmdRes.ok) := by
      have h6 := clean_build_result env fs v h4
      rw [hcl] at h6; exact h6
    subst hrcl
    have hfs1 : fs1 = fs := by
      have h6 := clean_build_fs env fs v
      rw [hcl] at h6; simp [hfx.1] at h6; exact h6
    subst fs1
    rcases hfbr : buildFinalFallback env fs (env.cmdRes ["cargo", "clean"] == CmdRes.ok)
      with ⟨fs2, tr2⟩
    have hfs2 : fs2 = fs := by
      have h6 := buildFinalFallback_fs env fs (env.cmdRes ["cargo", "clean"] == CmdRes.ok) hfx.2
      rw [hfbr] at h6; exact h6
    subst fs2
    constructor
    · simp [build_final, hchk, hcl, hfbr, run_command, hb, hfx.1, hmiss]
    · simp [build_final, hchk, hcl, hfbr, run_command, hb, hfx.1, hmiss]
  · intro env fs bn od c v n hfx h3 h4 hb hsz hcpy
    have hchk : check_cargo_project env fs = (true, [Act.statCheck (cargoTomlPath env)]) := by
      simp [check_cargo_project, h3]
    rcases hcl : clean_build env fs v with ⟨rcl, fs1, trcl⟩
    have hrcl : rcl = Except.ok (env.cmdRes ["cargo", "clean"] == CmdRes.ok) := by
      have h6 := clean_build_result env fs v h4
      rw [hcl] at h6; exact h6
    subst hrcl
    have hfs1 : fs1 = fs := by
      have h6 := clean_build_fs env fs v
      rw [hcl] at h6; simp [hfx.1] at h6; exact h6
    subst fs1
    rcases hfbr : buildFinalFallback env fs (env.cmdRes ["cargo", "clean"] == CmdRes.ok)
      with ⟨fs2, tr2⟩
    have hfs2 : fs2 = fs := by
      have h6 := buildFinalFallback_fs env fs (env.cmdRes ["cargo", "clean"] == CmdRes.ok) hfx.2
      rw [hfbr] at h6; exact h6
    subst fs2
    constructor
    · simp [build_final, hchk, hcl, hfbr, run_command, hb, hfx.1, hsz, hcpy]
    · simp [build_final, hchk, hcl, hfbr, run_command, hb, hfx.1, hsz, hcpy]

def c1Env : Env :=
  { projectDir := ".", osIsNt := false, readResult := none, tomlResult := none,
    cmdRes := fun _ => CmdRes.ok, cmdFs := idFx, rmtreeFs := idRm,
    copyOk := true, input := none }

def c1Fs : Fs :=
  { size := fun p =>
      if p = "./Cargo.toml" then some 3
      else if p = "./target/release/app" then some 7
      else none,
    dirExists := fun _ => false }

def c1FsMiss : Fs :=
  { size := fun p => if p = "./Cargo.toml" then some 3 else none,
    dirExists := fun _ => false }

def c1EnvNoCopy : Env := { c1Env with copyOk := false }

/-- Witness for C1: the three conjuncts applied at concrete environments —
a successful run, a run with the built artifact absent, and a run whose
copy fails. -/
theorem buildFinal_success_requires_copied_artifact_witness :
    (((build_final c1Env c1Fs "app" "dist" false false).2.1.size
        (finalPath c1Env "app" "dist")).isSome = true
      ∧ (build_final c1Env c1Fs "app" "dist" false false).2.1.size (finalPath c1Env "app" "dist")
          = (build_final c1Env c1Fs "app" "dist" false false).2.1.size (builtPath c1Env "app"))
    ∧ ((build_final c1Env c1FsMiss "app" "dist" false false).1 = Except.ok false
      ∧ Act.msg ("❌ Nie znaleziono skompilowanego pliku: " ++ builtPath c1Env "app")
          ∈ (build_final c1Env c1FsMiss "app" "dist" false false).2.2)
    ∧ ((build_final c1EnvNoCopy c1Fs "app" "dist" false false).1 = Except.ok false
      ∧ Act.msg ("❌ Kopiowanie do " ++ finalPath c1EnvNoCopy "app" "dist" ++ " nie powiodło się")
          ∈ (build_final c1EnvNoCopy c1Fs "app" "dist" false false).2.2) := by
  refine ⟨?_, ?_, ?_⟩
  · exact buildFinal_success_requires_copied_artifact.1 c1Env c1Fs "app" "dist" false false
      _ _ _ rfl rfl
  · exact buildFinal_success_requires_copied_artifact.2.1 c1Env c1FsMiss "app" "dist" false false
      ⟨fun _ _ => rfl, fun _ _ => rfl⟩ rfl (by decide) rfl rfl
  · exact buildFinal_success_requires_copied_artifact.2.2 c1EnvNoCopy c1Fs "app" "dist" false false 7
      ⟨fun _ _ => rfl, fun _ _ => rfl⟩ rfl (by decide) rfl rfl rfl

def c6Env : Env :=
  { projectDir := ".", osIsNt := false, readResult := none, tomlResult := none,
    cmdRes := fun _ => CmdRes.ok, cmdFs := idFx, rmtreeFs := idRm,
    copyOk := true, input := none }

def c6Fs : Fs :=
  { size := fun p =>
      if p = "./Cargo.toml" then some 3
      else if p = "./target/release/EXruster_nightly" then some 7
      else none,
    dirExists := fun _ => false }

def c6Args : Args :=
  { debug := false, verbose := false, checkOnly := false, cleanOnly := false,
    clean := false, runTestsFlag := false, exampleName := none,
    bin := "EXruster_nightly", outDir := "dist" }

/-- C6: contrary to the claim, the `clean` parameter of `build_final` (the
`--clean` flag) is irrelevant: the body never reads it (conjunct 1: the
result is literally identical for both parameter values), and a default
invocation *without* `--clean` still runs `cargo clean` (conjuncts 2-4: at a
concrete successful run with `clean = false`, the trace spawns
`cargo clean` and the run exits 0). -/
theorem build_final_always_cleans :
    (∀ (env : Env) (fs : Fs) (bn od : String) (v c1 c2 : Bool),
      build_final env fs bn od c1 v = build_final env fs bn od c2 v)
    ∧ c6Args.clean = false
    ∧ Act.runCmd ["cargo", "clean"] ∈ (mainEntry c6Env c6Fs c6Args).2.2
    ∧ (mainEntry c6Env c6Fs c6Args).1 = 0 :=
  ⟨fun _ _ _ _ _ _ _ => rfl, rfl, by decide, by decide⟩

/-- C8 (amended): a `KeyboardInterrupt` during the run step is caught
*inside* `run_application`: the stop message is printed, no exception (and
hence no stack trace) propagates, and the surrounding workflow continues
normally; exit code 130 is produced only when an interruption reaches the
top-level handler outside the run step (conjunct 2 shows the clean-only
dispatch doing exactly that). -/
theorem run_interrupt_swallowed :
    (∀ (env : Env) (fs : Fs) (exampleName : Option String) (release : Bool),
      env.cmdRes (runAppCommand exampleName release) = CmdRes.interrupt →
      (run_application env fs exampleName release).1 = Except.ok ()
      ∧ Act.msg "🛑 Aplikacja zatrzymana przez użytkownika"
          ∈ (run_application env fs exampleName release).2.2)
    ∧ (∀ (env : Env) (fs : Fs) (args : Args),
      args.cleanOnly = true →
      (fs.size (cargoTomlPath env)).isSome = true →
      env.cmdRes ["cargo", "clean"] = CmdRes.interrupt →
      (mainEntry env fs args).1 = 130) := by
  constructor
  · intro env fs exampleName release h
    constructor
    · simp [run_application, h]
    · cases exampleName <;> simp [run_application, h]
  · intro env fs args h1 h2 h3
    simp [mainEntry, mainBody, clean_build, run_command, check_cargo_project, h1, h2, h3]

def c8Env : Env :=
  { projectDir := ".", osIsNt := false, readResult := none, tomlResult := none,
    cmdRes := fun c =>
      if c = ["cargo", "run", "--release"] then CmdRes.interrupt else CmdRes.ok,
    cmdFs := idFx, rmtreeFs := idRm, copyOk := true, input := some "t" }

def c8EnvClean : Env :=
  { c8Env with cmdRes := fun c => if c = ["cargo", "clean"] then CmdRes.interrupt else CmdRes.ok }

def c8Fs : Fs :=
  { size := fun p => if p = "./Cargo.toml" then some 3 else none,
    dirExists := fun _ => false }

def c8Args : Args :=
  { debug := false, verbose := false, checkOnly := false, cleanOnly := true,
    clean := false, runTestsFlag := false, exampleName := none,
    bin := "EXruster_nightly", outDir := "dist" }

/-- C8, counterexample: at a concrete run of the alternate workflow in which
the user confirms the run and then interrupts it, the interruption is
swallowed inside the run step — the workflow result is plain success
(`Except.ok true`, so any caller would exit 0, not 130) and the stop
message (not a stack trace) is printed. -/
theorem run_interrupt_not_exit_130 :
    (full_build_and_run c8Env c8Fs true false none false).1 = Except.ok true
    ∧ Act.msg "🛑 Aplikacja zatrzymana przez użytkownika"
        ∈ (full_build_and_run c8Env c8Fs true false none false).2.2 := by
  constructor
  · rfl
  · decide

/-- Witness for C8's amended theorem at concrete environments. -/
theorem run_interrupt_swallowed_witness :
    ((run_application c8Env c8Fs none true).1 = Except.ok ()
      ∧ Act.msg "🛑 Aplikacja zatrzymana przez użytkownika"
          ∈ (run_application c8Env c8Fs none true).2.2)
    ∧ (mainEntry c8EnvClean c8Fs c8Args).1 = 130 :=
  ⟨run_interrupt_swallowed.1 c8Env c8Fs none true rfl,
   run_interrupt_swallowed.2 c8EnvClean c8Fs c8Args rfl rfl rfl⟩

/-- C9: in `full_build_and_run` with tests enabled, a failing test step does
not abort the workflow: the warning is printed, execution reaches the
run-confirmation prompt, and (here with a negative answer, so that the run
step is not taken) the workflow returns true. -/
theorem test_failure_does_not_abort_full_workflow :
    ∀ (env : Env) (fs : Fs) (release verbose : Bool) (exampleName : Option String)
      (resp : String) (code : Int),
      (fs.size (cargoTomlPath env)).isSome = true →
      env.cmdRes ["cargo", "clean"] = CmdRes.ok →
      env.cmdRes ("cargo" :: "build" :: (if release then ["--release"] else [])) = CmdRes.ok →
      env.cmdRes ["cargo", "test"] = CmdRes.err code →
      env.input = some resp →
      yesResponses.contains (pyToLower (pyStrip resp)) = false →
      (full_build_and_run env fs release true exampleName verbose).1 = Except.ok true
      ∧ Act.msg "⚠️  Testy nie przeszły, ale kontynuujemy..."
          ∈ (full_build_and_run env fs release true exampleName verbose).2.2
      ∧ Act.prompt "❓ Czy chcesz uruchomić aplikację? (t/n): "
          ∈ (full_build_and_run env fs release true exampleName verbose).2.2 := by
  intro env fs release verbose exampleName resp code h1 h2 h3 h4 h5 h6
  have h7 : pyToLower (pyStrip resp) ∉ yesResponses := by simpa using h6
  refine ⟨?_, ?_, ?_⟩ <;>
    simp [full_build_and_run, check_cargo_project, clean_build, build_project, run_tests,
      run_command, h1, h2, h3, h4, h5, h7]

def c9Env : Env :=
  { projectDir := ".", osIsNt := false, readResult := none, tomlResult := none,
    cmdRes := fun c => if c = ["cargo", "test"] then CmdRes.err 1 else CmdRes.ok,
    cmdFs := idFx, rmtreeFs := idRm, copyOk := true, input := some "n" }

def c9Fs : Fs :=
  { size := fun p => if p = "./Cargo.toml" then some 3 else none,
    dirExists := fun _ => false }

/-- Witness for C9 at a concrete environment whose `cargo test` exits 1. -/
theorem test_failure_does_not_abort_full_workflow_witness :
    (full_build_and_run c9Env c9Fs true true none false).1 = Except.ok true
    ∧ Act.msg "⚠️  Testy nie przeszły, ale kontynuujemy..."
        ∈ (full_build_and_run c9Env c9Fs true true none false).2.2
    ∧ Act.prompt "❓ Czy chcesz uruchomić aplikację? (t/n): "
        ∈ (full_build_and_run c9Env c9Fs true true none false).2.2 :=
  test_failure_does_not_abort_full_workflow c9Env c9Fs true false none "n" 1
    rfl (by decide) (by decide) (by decide) rfl (by decide)
